import Mathlib

/-!
Verification of the cross-chain bridge adapter / transfer-verification
harness.  Definitions are shallow embeddings of the TypeScript sources:

* the transfer-verification harness (sendTx, checkTransfer,
  retryCheckTransfer, ResultCode) from the xcm test harness file;
* the per-chain adapters (subscribeBalance, subscribeMaxInput, createTx)
  from src/adapters/interlay.ts, src/adapters/astar.ts and
  src/adapters/parallel.ts.

Fixed-point amounts (the FixedPointNumber type of the sdk-core library)
are modelled as exact rationals; FN.fromInner(s, d) is s / 10^d.
-/

/-- Verdict of one verification check (enum ResultCode in the harness). -/
inductive ResultCode where
  | OK
  | WARN
  | FAIL
deriving DecidableEq, Repr

/-- Result of one checkTransfer run: a message and a verdict
(type IndividualTestResult in the harness). -/
structure IndividualTestResult where
  message : String
  result : ResultCode
deriving DecidableEq, Repr

/-- Modelled from the spec: the BalanceChangedStatus enum lives in
src/types.ts, which is not among the sources; the harness only
distinguishes SUCCESS (a qualifying balance increase was observed) from
the non-success outcomes (spec section 4.5 names TIMEOUT; CHECKING is the
transient state). -/
inductive BalanceChangedStatus where
  | CHECKING
  | SUCCESS
  | TIMEOUT
deriving DecidableEq, Repr

/-- FN.fromInner(inner, decimals): an integer amount of smallest units
scaled down by the token's decimal precision. -/
def fnFromInner (inner : ℕ) (decimals : ℕ) : ℚ :=
  (inner : ℚ) / 10 ^ decimals

/-- What the harness observes after one sendTx call: the final
balance-changed status and the destination free balance read afterwards
(sendTx lines 73-74). -/
structure SendObs where
  status : BalanceChangedStatus
  newBalance : ℚ
deriving DecidableEq

/-- sendTx (harness lines 46-83): submits a transfer of sentAmount and
observes the destination.  If the status is not SUCCESS or the new free
balance is zero it throws (modelled as none); otherwise it returns
actualFee = sentAmount - newBalance (line 80). -/
def sendTx (sentAmount : ℚ) (obs : SendObs) : Option ℚ :=
  if obs.status ≠ BalanceChangedStatus.SUCCESS ∨ obs.newBalance = 0 then
    none
  else
    some (sentAmount - obs.newBalance)

/-- The fee classification of checkTransfer (harness lines 124-141):
if the overestimation factor is at most 2 the verdict is WARN, unless it
is below 1 in which case it is FAIL; above 2 the fee verdict is OK. -/
def classifyFee (factor : ℚ) : ResultCode :=
  if factor ≤ 2 then
    if factor < 1 then ResultCode.FAIL else ResultCode.WARN
  else ResultCode.OK

/-- Amount sent by the existential-deposit check (harness line 145):
actualFee + expectedEd + one smallest unit at the fee's precision. -/
def edCheckAmount (actualFee expectedEd : ℚ) (precision : ℕ) : ℚ :=
  actualFee + expectedEd + fnFromInner 1 precision

/-- Environment of one checkTransfer run: the configured values read from
the origin adapter and the observations of the two sendTx calls. -/
structure CheckEnv where
  expectedMinAmount : ℚ
  expectedEd : ℚ
  feeBudget : ℚ
  precision : ℕ
  feeObs : SendObs
  edObs : SendObs
deriving DecidableEq

/-- checkTransfer (harness lines 107-155).  First sendTx of ten times the
minimal input; on throw the catch-all returns FAIL.  Then the fee verdict
is computed from feeBudget / actualFee; a verdict of FAIL returns at
once, otherwise the existential-deposit transfer of edCheckAmount is
sent, a throw again yielding FAIL, and the fee verdict (WARN or OK) is
returned. -/
def checkTransfer (env : CheckEnv) : ResultCode :=
  match sendTx (env.expectedMinAmount * 10) env.feeObs with
  | none => ResultCode.FAIL
  | some actualFee =>
    let verdict := classifyFee (env.feeBudget / actualFee)
    if verdict = ResultCode.FAIL then ResultCode.FAIL
    else
      match sendTx (edCheckAmount actualFee env.expectedEd env.precision)
          env.edObs with
      | none => ResultCode.FAIL
      | some _ => verdict

/-- retryCheckTransfer (harness lines 157-178), with the run of
checkTransfer at each attempt abstracted as a function of the attempt
number.  Returns the result together with the number of attempts
performed.  The source returns the result as soon as it is OK, retries
while attemptCount is below maxAttempts, and otherwise gives up with the
last result. -/
def retryCheckTransfer (check : ℕ → IndividualTestResult)
    (maxAttempts : ℕ) (attemptCount : ℕ) : IndividualTestResult × ℕ :=
  let result := check attemptCount
  if result.result = ResultCode.OK then (result, 1)
  else if h : attemptCount < maxAttempts then
    let r := retryCheckTransfer check maxAttempts (attemptCount + 1)
    (r.1, r.2 + 1)
  else (result, 1)
termination_by maxAttempts - attemptCount
decreasing_by omega

/-- Number of attempts the harness configures (runTestCasesAndExit
line 223 calls retryCheckTransfer with maxAttempts = 3). -/
def harnessMaxAttempts : ℕ := 3

/-- The canonical balance record produced by the balance normalizers
(type BalanceData in src/types.ts). -/
structure BalanceData where
  free : ℚ
  locked : ℚ
  reserved : ℚ
  available : ℚ
deriving DecidableEq

/-- The snapshot the balance normalizers emit for a token read from the
secondary per-token asset store (interlay.ts lines 113-127, astar.ts
lines 114-129, parallel.ts lines 77-88): the single raw balance field is
decimal-scaled and reported as both free and available, with locked and
reserved forced to zero. -/
def nonNativeBalanceData (rawBalance : ℕ) (decimals : ℕ) : BalanceData :=
  let amount := fnFromInner rawBalance decimals
  { free := amount
    locked := 0
    reserved := 0
    available := amount }

/-- One emission of subscribeMaxInput in the interlay and astar adapters
(interlay.ts lines 159-196, astar.ts lines 160-197): the dry-run fee
estimate (in smallest units) is used only when the sent token is the
chain's native fee token, is scaled and multiplied by the fixed factor
1.2, and the result is available - fee - ed, with the token's configured
existential deposit ed also given in smallest units. -/
def subscribeMaxInputEmit (isNativeToken : Bool) (estFeeInner : ℕ)
    (decimals : ℕ) (available : ℚ) (edInner : ℕ) : ℚ :=
  let txFee : ℕ := if isNativeToken then estFeeInner else 0
  let fee := fnFromInner txFee decimals * ((12 : ℚ) / 10)
  available - fee - fnFromInner edInner decimals

/-- One emission of subscribeMaxInput in the parallel adapter
(parallel.ts lines 111-141): same computation, except that the
existential deposit arrives as an already-scaled optional amount from
getTokenED and defaults to zero when absent. -/
def parallelMaxInputEmit (isNativeToken : Bool) (estFeeInner : ℕ)
    (decimals : ℕ) (available : ℚ) (ed : Option ℚ) : ℚ :=
  let txFee : ℕ := if isNativeToken then estFeeInner else 0
  let fee := fnFromInner txFee decimals * ((12 : ℚ) / 10)
  available - fee - (ed.getD 0)

/-- The max-sendable formula as the spec states it (section 4.3):
available balance minus feeFactor times the estimated transfer cost
(zero when the sent token is not the native fee token) minus the
minimum balance to exist, with feeFactor = 1.2. -/
def maxSendableSpec (available estimatedTxFee minBalanceToExist : ℚ)
    (sentTokenIsNative : Bool) : ℚ :=
  available - ((12 : ℚ) / 10) *
      (if sentTokenIsNative then estimatedTxFee else 0) -
    minBalanceToExist

/-- A junction of a multilocation path as built by the adapters. -/
inductive Junction where
  | Parachain (id : ℕ)
  | AccountId32 (id : String) (network : Option String)
deriving DecidableEq

/-- The interior of a multilocation: a one- or two-junction path. -/
inductive InteriorMultiLocation where
  | X1 (j : Junction)
  | X2 (j1 j2 : Junction)
deriving DecidableEq

/-- A multilocation destination as built by the adapters. -/
structure MultiLocation where
  parents : ℕ
  interior : InteriorMultiLocation
deriving DecidableEq

/-- The per-chain identity the message builders read: the chain id and
its parachain id (field paraChainId of the chain config). -/
structure ChainCfg where
  id : String
  paraChainId : ℕ
deriving DecidableEq

/-- Modelled from the spec: isChainEqual comes from
src/utils/is-chain-equal.ts, which is not among the sources; per the
spec's data model a chain is identified by its unique id, so equality
against a chain name compares the id. -/
def isChainEqual (c : ChainCfg) (name : String) : Bool :=
  c.id = name

/-- The destination multilocation built by createTx of the interlay
adapter (interlay.ts lines 218-235): the default is the sibling shape,
parents 1 with an X2 interior of the target parachain id followed by the
account; when the destination is the kusama or polkadot relay chain it
is overwritten by the relay shape, parents 1 with an X1 interior holding
only the account. -/
def interlayDst (toChain : ChainCfg) (accountId : String) : MultiLocation :=
  let sibling : MultiLocation :=
    { parents := 1
      interior := InteriorMultiLocation.X2 (Junction.Parachain toChain.paraChainId)
        (Junction.AccountId32 accountId (some "Any")) }
  if isChainEqual toChain "kusama" || isChainEqual toChain "polkadot" then
    { parents := 1
      interior :=
        InteriorMultiLocation.X1 (Junction.AccountId32 accountId (some "Any")) }
  else sibling


/-- Modelled from the spec: XCM_V3_GENERAL_KEY_DATA_BYTES is imported
from src/utils/xcm-versioned-multilocation-check.ts, which is not among
the sources; the spec calls it a fixed total length mandated by the
newer message-encoding version, a protocol constant and not per-token.
The XCM v3 GeneralKey data field is 32 bytes. -/
def XCM_V3_GENERAL_KEY_DATA_BYTES : ℕ := 32

/-- JavaScript String.prototype.padEnd on a hex string, with the string
as a list of characters: when the string is at least targetLength long,
or the pad string is empty, it is returned unchanged; otherwise copies
of the pad string are appended and truncated so that the result has
exactly targetLength characters. -/
def jsPadEnd (s : List Char) (targetLength : ℕ) (pad : List Char) :
    List Char :=
  if targetLength ≤ s.length ∨ pad = [] then s
  else
    s ++ (List.flatten (List.replicate (targetLength - s.length) pad)).take
      (targetLength - s.length)

/-- The V3 GeneralKey junction contents built by createTx of the astar
adapter for a non-native token (astar.ts lines 280-285 and 308-330):
the byte count of the raw hex token id without its 0x prefix, and the id
right-padded with the two-character string 00 to a total length of
2 * XCM_V3_GENERAL_KEY_DATA_BYTES + 2 hex characters. -/
def astarV3GeneralKey (tokenId : List Char) : ℕ × List Char :=
  ((tokenId.length - 2) / 2,
   jsPadEnd tokenId (2 * XCM_V3_GENERAL_KEY_DATA_BYTES + 2) ['0', '0'])

/-- The SUPPORTED_TOKENS table of the parallel adapter (parallel.ts
lines 15-24), mapping a token symbol to its numeric asset id. -/
def parallelSupportedTokens (token : String) : Option ℕ :=
  if token = "HKO" then some 0
  else if token = "KAR" then some 107
  else if token = "KUSD" then some 103
  else if token = "LKSM" then some 109
  else if token = "PARA" then some 1
  else if token = "ACA" then some 108
  else if token = "AUSD" then some 104
  else if token = "LDOT" then some 110
  else none

/-- JavaScript falsiness of a possibly-absent number: an absent lookup
result (undefined) and the number 0 are falsy, every other number is
truthy. -/
def jsFalsyNum (v : Option ℕ) : Bool :=
  match v with
  | none => true
  | some n => n = 0

/-- The token-id lookup of createTx in the parallel adapter (parallel.ts
lines 153-157): reads SUPPORTED_TOKENS and throws CurrencyNotFound when
the result is falsy; otherwise the numeric id feeds the transfer call. -/
def parallelCreateTxCurrency (token : String) : Except String ℕ :=
  let tokenId := parallelSupportedTokens token
  if jsFalsyNum tokenId then Except.error "CurrencyNotFound"
  else Except.ok (tokenId.getD 0)

/-- The token-id lookup of the non-native branch of subscribeBalance in
the parallel adapter (parallel.ts lines 71-75): the same falsy check on
the SUPPORTED_TOKENS entry, the id otherwise feeding the asset-account
storage query. -/
def parallelBalanceAssetCurrency (token : String) : Except String ℕ :=
  let tokenId := parallelSupportedTokens token
  if jsFalsyNum tokenId then Except.error "CurrencyNotFound"
  else Except.ok (tokenId.getD 0)

/-- Test double: a check whose verdict is WARN at every attempt. -/
def alwaysWarn : ℕ → IndividualTestResult :=
  fun _ => { message := "", result := ResultCode.WARN }

/-- Test double: a check whose verdict is FAIL at every attempt. -/
def alwaysFail : ℕ → IndividualTestResult :=
  fun _ => { message := "", result := ResultCode.FAIL }

/-- Test double: a check that is OK at the second attempt and WARN
before and after. -/
def warnThenOk : ℕ → IndividualTestResult :=
  fun n =>
    if n = 2 then { message := "", result := ResultCode.OK }
    else { message := "", result := ResultCode.WARN }

/-- Concrete verification environment in which the first transfer
succeeds with destination balance 60 and the existential-deposit
transfer leaves a zero destination balance. -/
def zeroEdEnv : CheckEnv :=
  { expectedMinAmount := 10
    expectedEd := 5
    feeBudget := 100
    precision := 10
    feeObs := { status := BalanceChangedStatus.SUCCESS, newBalance := 60 }
    edObs := { status := BalanceChangedStatus.SUCCESS, newBalance := 0 } }

theorem retryCheckTransfer_unfold (check : ℕ → IndividualTestResult)
    (maxAttempts attemptCount : ℕ) :
    retryCheckTransfer check maxAttempts attemptCount =
      if (check attemptCount).result = ResultCode.OK then
        (check attemptCount, 1)
      else if attemptCount < maxAttempts then
        let r := retryCheckTransfer check maxAttempts (attemptCount + 1)
        (r.1, r.2 + 1)
      else (check attemptCount, 1) := by
  rw [retryCheckTransfer]
  split
  · rfl
  · split <;> rfl

theorem retry_exhaust_aux (check : ℕ → IndividualTestResult) (maxA : ℕ) :
    ∀ d a, maxA - a = d → a ≤ maxA →
      (∀ j, a ≤ j → j ≤ maxA → (check j).result ≠ ResultCode.OK) →
      retryCheckTransfer check maxA a = (check maxA, maxA - a + 1) := by
  intro d
  induction d with
  | zero =>
    intro a hd ha hno
    have haM : a = maxA := by omega
    subst haM
    rw [retryCheckTransfer_unfold]
    have h1 : (check a).result ≠ ResultCode.OK := hno a le_rfl le_rfl
    simp [h1]
  | succ d ih =>
    intro a hd ha hno
    have haM : a < maxA := by omega
    have h1 : (check a).result ≠ ResultCode.OK := hno a le_rfl (le_of_lt haM)
    rw [retryCheckTransfer_unfold]
    simp only [h1, if_false, haM, if_true]
    rw [ih (a + 1) (by omega) (by omega)
      (fun j hj1 hj2 => hno j (by omega) hj2)]
    simp only [Prod.mk.injEq, true_and]
    omega

theorem retry_first_ok_aux (check : ℕ → IndividualTestResult) (maxA : ℕ) :
    ∀ d a k, maxA - a = d → a ≤ k → k ≤ maxA →
      (check k).result = ResultCode.OK →
      (∀ j, a ≤ j → j < k → (check j).result ≠ ResultCode.OK) →
      retryCheckTransfer check maxA a = (check k, k - a + 1) := by
  intro d
  induction d with
  | zero =>
    intro a k hd hak hkM hok hbefore
    have hka : k = a := by omega
    subst hka
    rw [retryCheckTransfer_unfold]
    simp [hok]
  | succ d ih =>
    intro a k hd hak hkM hok hbefore
    by_cases hka : k = a
    · subst hka
      rw [retryCheckTransfer_unfold]
      simp [hok]
    · have halt : a < k := by omega
      have hne : (check a).result ≠ ResultCode.OK := hbefore a le_rfl halt
      have haM : a < maxA := by omega
      rw [retryCheckTransfer_unfold]
      simp only [hne, if_false, haM, if_true]
      rw [ih (a + 1) k (by omega) (by omega) hkM hok
        (fun j hj1 hj2 => hbefore j (by omega) hj2)]
      simp only [Prod.mk.injEq, true_and]
      omega

/-- C1: for every completed verification session the fee verdict derived
from feeOverestimationFactor = configuredFeeBudget / actualFee is FAIL
exactly when the factor is below 1, WARN exactly when it lies between 1
and 2 inclusive, and OK exactly when it exceeds 2; actualFee is sentAmount
minus the observed destination free balance; and at budget 100 the
boundary cases actualFee = 100, 101 and 40 give WARN, FAIL and OK. -/
theorem fee_verdict_classification :
    (∀ factor : ℚ,
      (classifyFee factor = ResultCode.FAIL ↔ factor < 1) ∧
      (classifyFee factor = ResultCode.WARN ↔ 1 ≤ factor ∧ factor ≤ 2) ∧
      (classifyFee factor = ResultCode.OK ↔ 2 < factor)) ∧
    (∀ sentAmount newBalance : ℚ,
      newBalance = 0 ∨
        sendTx sentAmount
            { status := BalanceChangedStatus.SUCCESS, newBalance := newBalance }
          = some (sentAmount - newBalance)) ∧
    classifyFee ((100 : ℚ) / 100) = ResultCode.WARN ∧
    classifyFee ((100 : ℚ) / 101) = ResultCode.FAIL ∧
    classifyFee ((100 : ℚ) / 40) = ResultCode.OK := by
  refine ⟨?_, ?_, by norm_num [classifyFee], by norm_num [classifyFee],
    by norm_num [classifyFee]⟩
  · intro factor
    unfold classifyFee
    split_ifs with h1 h2
    · exact ⟨⟨fun _ => h2, fun _ => rfl⟩,
        ⟨fun h => by simp at h, fun hab => absurd hab.1 (not_le.mpr h2)⟩,
        ⟨fun h => by simp at h, fun h2f => absurd h1 (not_le.mpr h2f)⟩⟩
    · exact ⟨⟨fun h => by simp at h, fun hf => absurd hf h2⟩,
        ⟨fun _ => ⟨not_lt.mp h2, h1⟩, fun _ => rfl⟩,
        ⟨fun h => by simp at h, fun h2f => absurd h1 (not_le.mpr h2f)⟩⟩
    · exact ⟨⟨fun h => by simp at h,
          fun hf => absurd (le_of_lt (by linarith)) h1⟩,
        ⟨fun h => by simp at h, fun hab => absurd hab.2 h1⟩,
        ⟨fun _ => not_le.mp h1, fun _ => rfl⟩⟩
  · intro s b
    by_cases hb : b = 0
    · exact Or.inl hb
    · exact Or.inr (by simp [sendTx, hb])

/-- C2 counterexample: with the sent token not the native fee token, a
zero available balance and the astar IBTC existential deposit of one
smallest unit at eight decimals, subscribeMaxInput emits a strictly
negative amount, so the adapter does return a negative recommendation. -/
theorem maxInput_negative_example :
    subscribeMaxInputEmit false 0 8 0 1 < 0 := by
  norm_num [subscribeMaxInputEmit, fnFromInner]

/-- C2 (amended): the amount emitted by subscribeMaxInput is
non-negative exactly when the available balance covers 1.2 times the
(native-token-only) estimated fee plus the existential deposit; below
that it is negative, and callers must treat a non-positive result as no
safe amount to send. -/
theorem maxInput_nonneg_iff :
    ∀ (isNativeToken : Bool) (estFeeInner decimals edInner : ℕ)
      (available : ℚ),
      0 ≤ subscribeMaxInputEmit isNativeToken estFeeInner decimals
          available edInner ↔
        fnFromInner (if isNativeToken then estFeeInner else 0) decimals *
            ((12 : ℚ) / 10) + fnFromInner edInner decimals ≤ available := by
  intro isNat f d e a
  unfold subscribeMaxInputEmit
  constructor <;> intro h <;> linarith

/-- C3: each amount emitted by subscribeMaxInput equals the available
balance minus 1.2 times the estimated transaction fee minus the token's
configured minimum balance to exist, the fee being the dry-run estimate
when the sent token is the chain's native fee token and zero otherwise;
this holds for the interlay and astar shape and for the parallel shape
of the computation. -/
theorem maxInput_matches_spec_formula :
    ∀ (isNativeToken : Bool) (estFeeInner decimals edInner : ℕ)
      (available ed : ℚ),
      subscribeMaxInputEmit isNativeToken estFeeInner decimals available
          edInner
        = maxSendableSpec available (fnFromInner estFeeInner decimals)
            (fnFromInner edInner decimals) isNativeToken ∧
      parallelMaxInputEmit isNativeToken estFeeInner decimals available
          (some ed)
        = maxSendableSpec available (fnFromInner estFeeInner decimals) ed
            isNativeToken := by
  intro isNat f d e a ed
  cases isNat
  all_goals
    simp [subscribeMaxInputEmit, parallelMaxInputEmit, maxSendableSpec,
      fnFromInner]
  all_goals ring

/-- C4 counterexample: a check that yields WARN at every attempt has a
non-FAIL first verdict, yet with a ceiling of two the orchestrator does
not stop after the first attempt: it performs two attempts, refuting the
claim that any non-FAIL verdict ends the retrying. -/
theorem retry_warn_counterexample :
    (alwaysWarn 1).result ≠ ResultCode.FAIL ∧
    retryCheckTransfer alwaysWarn 2 1 = (alwaysWarn 2, 2) ∧
    (retryCheckTransfer alwaysWarn 2 1).2 ≠ 1 := by
  have h2 : retryCheckTransfer alwaysWarn 2 1 = (alwaysWarn 2, 2) := by
    simpa using retry_exhaust_aux alwaysWarn 2 1 1 rfl (by omega)
      (fun j _ _ => by simp [alwaysWarn])
  exact ⟨by simp [alwaysWarn], h2, by rw [h2]; decide⟩

/-- C4 (amended): the retry orchestrator performs up to N attempts of
one verification check; only an OK verdict ends the retrying (a WARN
attempt is retried just like FAIL), so it returns the first OK result,
or the last result after exhausting the N attempts. -/
theorem retry_first_ok_or_exhaust (check : ℕ → IndividualTestResult)
    (maxAttempts : ℕ) (hmax : 1 ≤ maxAttempts) :
    (∀ k, 1 ≤ k → k ≤ maxAttempts → (check k).result = ResultCode.OK →
      (∀ j, 1 ≤ j → j < k → (check j).result ≠ ResultCode.OK) →
      retryCheckTransfer check maxAttempts 1 = (check k, k)) ∧
    ((∀ j, 1 ≤ j → j ≤ maxAttempts → (check j).result ≠ ResultCode.OK) →
      retryCheckTransfer check maxAttempts 1
        = (check maxAttempts, maxAttempts)) := by
  constructor
  · intro k h1 h2 hok hbef
    have h := retry_first_ok_aux check maxAttempts (maxAttempts - 1) 1 k
      rfl h1 h2 hok hbef
    rwa [Nat.sub_add_cancel h1] at h
  · intro hno
    have h := retry_exhaust_aux check maxAttempts (maxAttempts - 1) 1
      rfl hmax hno
    rwa [Nat.sub_add_cancel hmax] at h

theorem retry_first_ok_or_exhaust_witness :
    retryCheckTransfer warnThenOk 3 1 = (warnThenOk 2, 2) :=
  (retry_first_ok_or_exhaust warnThenOk 3 (by decide)).1 2 (by decide)
    (by decide) (by decide)
    (fun j hj1 hj2 => by
      have hj : j = 1 := by omega
      subst hj
      decide)

/-- C5: if every attempt of the check fails, the retry orchestrator
performs exactly the configured ceiling of attempts and no more, and
returns the final attempt's result. -/
theorem retry_exhausts_on_fail (check : ℕ → IndividualTestResult)
    (maxAttempts : ℕ) (hmax : 1 ≤ maxAttempts)
    (hfail : ∀ j, (check j).result = ResultCode.FAIL) :
    retryCheckTransfer check maxAttempts 1
      = (check maxAttempts, maxAttempts) := by
  have h := retry_exhaust_aux check maxAttempts (maxAttempts - 1) 1 rfl hmax
    (fun j _ _ => by rw [hfail j]; decide)
  rwa [Nat.sub_add_cancel hmax] at h

theorem retry_exhausts_on_fail_witness :
    retryCheckTransfer alwaysFail harnessMaxAttempts 1 = (alwaysFail 3, 3) :=
  retry_exhausts_on_fail alwaysFail harnessMaxAttempts (by decide)
    (fun j => rfl)

/-- C6: the existential-deposit check sends a follow-up transfer of
exactly actualFee plus the configured minimum balance to exist plus one
smallest unit, and a zero destination free balance observed after the
transfer makes the whole check yield the hard-failure verdict FAIL. -/
theorem ed_check_exact_amount_and_zero_fails (env : CheckEnv)
    (actualFee : ℚ)
    (h1 : sendTx (env.expectedMinAmount * 10) env.feeObs = some actualFee)
    (h2 : env.edObs.newBalance = 0) :
    edCheckAmount actualFee env.expectedEd env.precision
        = actualFee + env.expectedEd + 1 / 10 ^ env.precision ∧
    (∀ amount : ℚ, sendTx amount env.edObs = none) ∧
    checkTransfer env = ResultCode.FAIL := by
  have hsend : ∀ amount : ℚ, sendTx amount env.edObs = none := by
    intro amount
    unfold sendTx
    simp [h2]
  refine ⟨by simp [edCheckAmount, fnFromInner], hsend, ?_⟩
  unfold checkTransfer
  rw [h1]
  simp only [hsend]
  split_ifs <;> rfl

theorem ed_check_exact_amount_and_zero_fails_witness :
    edCheckAmount 40 zeroEdEnv.expectedEd zeroEdEnv.precision
        = 40 + zeroEdEnv.expectedEd + 1 / 10 ^ zeroEdEnv.precision ∧
    (∀ amount : ℚ, sendTx amount zeroEdEnv.edObs = none) ∧
    checkTransfer zeroEdEnv = ResultCode.FAIL :=
  ed_check_exact_amount_and_zero_fails zeroEdEnv 40
    (by simp [sendTx, zeroEdEnv]; norm_num) rfl

/-- C7: every snapshot the balance normalizers emit for a non-native
token satisfies free = available = the decimal-scaled raw per-token
account balance and locked = reserved = 0, hence free is at least
available. -/
theorem non_native_snapshot_shape :
    ∀ rawBalance decimals : ℕ,
      (nonNativeBalanceData rawBalance decimals).free
          = fnFromInner rawBalance decimals ∧
      (nonNativeBalanceData rawBalance decimals).available
          = fnFromInner rawBalance decimals ∧
      (nonNativeBalanceData rawBalance decimals).locked = 0 ∧
      (nonNativeBalanceData rawBalance decimals).reserved = 0 ∧
      (nonNativeBalanceData rawBalance decimals).available
          ≤ (nonNativeBalanceData rawBalance decimals).free := by
  intro r d
  simp [nonNativeBalanceData]

/-- C8: for the same account, building for a relay-chain destination
yields the single-level X1 interior holding only the account, building
for a sibling parachain yields the two-level X2 interior of the
parachain id followed by the account, and the two destination values
are distinct. -/
theorem relay_sibling_dst_disjoint (accountId : String)
    (relayChain siblingChain : ChainCfg)
    (hrelay : (isChainEqual relayChain "kusama" ||
        isChainEqual relayChain "polkadot") = true)
    (hsib : (isChainEqual siblingChain "kusama" ||
        isChainEqual siblingChain "polkadot") = false) :
    interlayDst relayChain accountId
        = { parents := 1
            interior := InteriorMultiLocation.X1
              (Junction.AccountId32 accountId (some "Any")) } ∧
    interlayDst siblingChain accountId
        = { parents := 1
            interior := InteriorMultiLocation.X2
              (Junction.Parachain siblingChain.paraChainId)
              (Junction.AccountId32 accountId (some "Any")) } ∧
    interlayDst relayChain accountId ≠ interlayDst siblingChain accountId := by
  have e1 : interlayDst relayChain accountId
      = { parents := 1
          interior := InteriorMultiLocation.X1
            (Junction.AccountId32 accountId (some "Any")) } := by
    simp [interlayDst, hrelay]
  have e2 : interlayDst siblingChain accountId
      = { parents := 1
          interior := InteriorMultiLocation.X2
            (Junction.Parachain siblingChain.paraChainId)
            (Junction.AccountId32 accountId (some "Any")) } := by
    simp [interlayDst, hsib]
  refine ⟨e1, e2, ?_⟩
  rw [e1, e2]
  simp

theorem relay_sibling_dst_disjoint_witness :
    interlayDst { id := "kusama", paraChainId := 0 } "0xabc"
        = { parents := 1
            interior := InteriorMultiLocation.X1
              (Junction.AccountId32 "0xabc" (some "Any")) } ∧
    interlayDst { id := "heiko", paraChainId := 2085 } "0xabc"
        = { parents := 1
            interior := InteriorMultiLocation.X2
              (Junction.Parachain 2085)
              (Junction.AccountId32 "0xabc" (some "Any")) } ∧
    interlayDst { id := "kusama", paraChainId := 0 } "0xabc"
      ≠ interlayDst { id := "heiko", paraChainId := 2085 } "0xabc" :=
  relay_sibling_dst_disjoint "0xabc" { id := "kusama", paraChainId := 0 }
    { id := "heiko", paraChainId := 2085 } (by decide) (by decide)

theorem flatten_replicate_pair (c : Char) (n : ℕ) :
    (List.replicate n [c, c]).flatten = List.replicate (2 * n) c := by
  induction n with
  | zero => simp
  | succ n ih =>
    rw [List.replicate_succ, List.flatten_cons, ih]
    have h2 : 2 * (n + 1) = 2 * n + 1 + 1 := by ring
    rw [h2, List.replicate_succ, List.replicate_succ]
    rfl

/-- C9: in the V3 encoding branch, a raw general-key token id of b bytes
(hex string 0x followed by 2b characters) with b at most
XCM_V3_GENERAL_KEY_DATA_BYTES is right-padded with zero bytes to exactly
that total byte length, and an id already at the full length is passed
through unchanged. -/
theorem general_key_padding (rest : List Char) (b : ℕ)
    (hlen : rest.length = 2 * b)
    (hle : b ≤ XCM_V3_GENERAL_KEY_DATA_BYTES) :
    (astarV3GeneralKey ('0' :: 'x' :: rest)).2
        = ('0' :: 'x' :: rest) ++
            List.replicate (2 * (XCM_V3_GENERAL_KEY_DATA_BYTES - b)) '0' ∧
    ((astarV3GeneralKey ('0' :: 'x' :: rest)).2).length
        = 2 * XCM_V3_GENERAL_KEY_DATA_BYTES + 2 ∧
    (b = XCM_V3_GENERAL_KEY_DATA_BYTES →
      (astarV3GeneralKey ('0' :: 'x' :: rest)).2 = '0' :: 'x' :: rest) := by
  have hslen : ('0' :: 'x' :: rest).length = 2 * b + 2 := by
    simp [hlen]
  by_cases hb : b = XCM_V3_GENERAL_KEY_DATA_BYTES
  · subst hb
    have hpad : (astarV3GeneralKey ('0' :: 'x' :: rest)).2
        = '0' :: 'x' :: rest := by
      unfold astarV3GeneralKey jsPadEnd
      rw [if_pos]
      left
      rw [hslen]
    refine ⟨?_, ?_, fun _ => hpad⟩
    · rw [hpad]
      simp
    · rw [hpad, hslen]
  · have hblt : b < XCM_V3_GENERAL_KEY_DATA_BYTES := lt_of_le_of_ne hle hb
    have hn : 2 * XCM_V3_GENERAL_KEY_DATA_BYTES + 2 -
          ('0' :: 'x' :: rest).length
        = 2 * (XCM_V3_GENERAL_KEY_DATA_BYTES - b) := by
      rw [hslen]
      omega
    have hpad : (astarV3GeneralKey ('0' :: 'x' :: rest)).2
        = ('0' :: 'x' :: rest) ++
            List.replicate (2 * (XCM_V3_GENERAL_KEY_DATA_BYTES - b)) '0' := by
      unfold astarV3GeneralKey jsPadEnd
      rw [if_neg]
      · rw [hn, flatten_replicate_pair, List.take_replicate,
          Nat.min_eq_left (by omega)]
      · rw [hslen]
        simp
        omega
    refine ⟨hpad, ?_, fun hcontra => absurd hcontra hb⟩
    rw [hpad]
    simp only [List.length_append, List.length_replicate, hslen]
    omega

theorem general_key_padding_witness :
    (astarV3GeneralKey ['0', 'x', '0', '0', '0', '1']).2
        = ['0', 'x', '0', '0', '0', '1'] ++
            List.replicate (2 * (XCM_V3_GENERAL_KEY_DATA_BYTES - 2)) '0' ∧
    ((astarV3GeneralKey ['0', 'x', '0', '0', '0', '1']).2).length
        = 2 * XCM_V3_GENERAL_KEY_DATA_BYTES + 2 ∧
    (2 = XCM_V3_GENERAL_KEY_DATA_BYTES →
      (astarV3GeneralKey ['0', 'x', '0', '0', '0', '1']).2
        = ['0', 'x', '0', '0', '0', '1']) :=
  general_key_padding ['0', '0', '0', '1'] 2 (by decide) (by decide)

/-- C10: the parallel adapter looks its token ids up with a JavaScript
falsy check, so the configured token HKO, whose id is 0, is present in
the supported-token table yet makes createTx throw CurrencyNotFound, and
in both createTx and the non-native branch of subscribeBalance a token
with id 0 is indistinguishable from a token absent from the table. -/
theorem parallel_zero_id_token_unusable :
    parallelSupportedTokens "HKO" = some 0 ∧
    parallelCreateTxCurrency "HKO" = Except.error "CurrencyNotFound" ∧
    parallelBalanceAssetCurrency "HKO" = Except.error "CurrencyNotFound" ∧
    (∀ token, parallelCreateTxCurrency token
        = Except.error "CurrencyNotFound" ↔
      (parallelSupportedTokens token = none ∨
        parallelSupportedTokens token = some 0)) ∧
    (∀ token, parallelBalanceAssetCurrency token
        = parallelCreateTxCurrency token) := by
  refine ⟨by decide, by rfl, by rfl, ?_, fun token => rfl⟩
  intro token
  cases h : parallelSupportedTokens token with
  | none => simp [parallelCreateTxCurrency, jsFalsyNum, h]
  | some n =>
    by_cases hn : n = 0
    · subst hn
      simp [parallelCreateTxCurrency, jsFalsyNum, h]
    · simp [parallelCreateTxCurrency, jsFalsyNum, h, hn]
